import Mathlib

/-!
Verification of the meas_algorithms measurement core.

Shallow embedding of the three source files
  src/trunk/src/centroid/NaiveCentroid.cc
  src/trunk/include/lsst/meas/algorithms/PSF.h
  src/include/lsst/meas/algorithms/Shape.h
Pixel values, background levels and moments (C++ double / float) are
modelled as rationals; pixel indices (C++ int) as integers.  External
collaborators (the afw image container, indexToPosition, the generic
convolution routine) are abstracted as function parameters, exactly as the
spec treats them (opaque pixel container, image convolution routine).
-/

namespace MeasAlgorithms

/-- The opaque pixel container of the spec: a 2-D array offering pixel
access in image-local coordinates plus the sub-image origin offsets
`getX0`/`getY0` used by `NaiveMeasureCentroid::doApply`. -/
structure Image where
  pixel : ℤ → ℤ → ℚ
  x0 : ℤ
  y0 : ℤ

/-- Modelled from the spec: the Centroid value type (its header
`Centroid.h` is not under src/): a 2-D position plus per-axis error,
with the error fields unset (`none`) unless explicitly provided, matching
the two-argument construction used by `NaiveMeasureCentroid::doApply`. -/
structure Centroid where
  x : ℚ
  y : ℚ
  xErr : Option ℚ := none
  yErr : Option ℚ := none
deriving DecidableEq

/-- The lsst::pex exception kinds thrown by the embedded code.
`runtimeErrorException` embeds `pexExceptions::RuntimeErrorException`
(the spec calls it ComputationError for degenerate input and
PreconditionError for a missing kernel realisation);
`notFoundException` embeds `pexExceptions::NotFoundException`
(the spec calls the factory-default instance UnsupportedOperation). -/
inductive LsstException where
  | runtimeErrorException (msg : String)
  | notFoundException (msg : String)
deriving DecidableEq

/-- The external afw kernel, reduced to what the embedded code reads from
it: `getWidth` and `getHeight`. -/
structure Kernel where
  width : ℤ
  height : ℤ
deriving DecidableEq

/-- `class PSF` state: an optional kernel `_kernel` plus the mutable
raster-size hints `_width`, `_height` (presentation-only fields). -/
structure PSF where
  kernel : Option Kernel
  width : ℤ
  height : ℤ
deriving DecidableEq

namespace NaiveMeasureCentroid

/-- The error message of `NaiveMeasureCentroid::doApply`, built as
`boost::format("Object at (%d, %d) has no counts") % x % y` on the
translated (image-local) coordinates. -/
def noCountsMessage (x y : ℤ) : String :=
  "Object at (" ++ toString x ++ ", " ++ toString y ++ ") has no counts"

/-- `NaiveMeasureCentroid<ImageT>::doApply` from
src/trunk/src/centroid/NaiveCentroid.cc.  `indexToPosition` abstracts the
external `lsst::afw::image::indexToPosition`; `psf` is the (unused)
`PSF const*` argument, nullable hence an `Option`. -/
def doApply (indexToPosition : ℤ → ℚ) (image : Image) (x y : ℤ)
    (psf : Option PSF) (background : ℚ) : Except LsstException Centroid :=
  -- x -= image.getX0(); y -= image.getY0(): work in image Pixel coordinates
  let x := x - image.x0
  let y := y - image.y0
  let im := fun dx dy : ℤ => image.pixel (x + dx) (y + dy)
  let sum : ℚ :=
    (im (-1) 1    + im 0 1    + im 1 1 +
     im (-1) 0    + im 0 0    + im 1 0 +
     im (-1) (-1) + im 0 (-1) + im 1 (-1)) - 9 * background
  if sum = 0 then
    .error (.runtimeErrorException (noCountsMessage x y))
  else
    let sum_x : ℚ :=
      -im (-1) 1    + im 1 1 +
      -im (-1) 0    + im 1 0 +
      -im (-1) (-1) + im 1 (-1)
    let sum_y : ℚ :=
      (im (-1) 1    + im 0 1    + im 1 1) -
      (im (-1) (-1) + im 0 (-1) + im 1 (-1))
    .ok { x := indexToPosition (x + image.x0) + sum_x / sum,
          y := indexToPosition (y + image.y0) + sum_y / sum }

/-- The local `sum` of `doApply`, phrased over the original (un-translated)
pixel position: the nine pixel values of the 3x3 neighborhood centered at
the origin-translated position, minus nine times the background. -/
def patchSum (image : Image) (x y : ℤ) (background : ℚ) : ℚ :=
  (image.pixel (x - image.x0 + -1) (y - image.y0 + 1) +
   image.pixel (x - image.x0 + 0)  (y - image.y0 + 1) +
   image.pixel (x - image.x0 + 1)  (y - image.y0 + 1) +
   image.pixel (x - image.x0 + -1) (y - image.y0 + 0) +
   image.pixel (x - image.x0 + 0)  (y - image.y0 + 0) +
   image.pixel (x - image.x0 + 1)  (y - image.y0 + 0) +
   image.pixel (x - image.x0 + -1) (y - image.y0 + -1) +
   image.pixel (x - image.x0 + 0)  (y - image.y0 + -1) +
   image.pixel (x - image.x0 + 1)  (y - image.y0 + -1)) - 9 * background

/-- The local `sum_x` of `doApply`: right-column sum minus left-column sum
over the 3 rows. -/
def patchSumX (image : Image) (x y : ℤ) : ℚ :=
  -image.pixel (x - image.x0 + -1) (y - image.y0 + 1) +
   image.pixel (x - image.x0 + 1)  (y - image.y0 + 1) +
  -image.pixel (x - image.x0 + -1) (y - image.y0 + 0) +
   image.pixel (x - image.x0 + 1)  (y - image.y0 + 0) +
  -image.pixel (x - image.x0 + -1) (y - image.y0 + -1) +
   image.pixel (x - image.x0 + 1)  (y - image.y0 + -1)

/-- The local `sum_y` of `doApply`: top-row sum minus bottom-row sum over
the 3 columns. -/
def patchSumY (image : Image) (x y : ℤ) : ℚ :=
  (image.pixel (x - image.x0 + -1) (y - image.y0 + 1) +
   image.pixel (x - image.x0 + 0)  (y - image.y0 + 1) +
   image.pixel (x - image.x0 + 1)  (y - image.y0 + 1)) -
  (image.pixel (x - image.x0 + -1) (y - image.y0 + -1) +
   image.pixel (x - image.x0 + 0)  (y - image.y0 + -1) +
   image.pixel (x - image.x0 + 1)  (y - image.y0 + -1))

end NaiveMeasureCentroid

/-- A concrete image all of whose pixels hold the same value, with zero
origin offsets; used to instantiate the symmetric-patch properties. -/
def constImage (v : ℚ) : Image := ⟨fun _ _ => v, 0, 0⟩

/-- The error message of `PSF::convolve` when there is no usable kernel. -/
def convolveErrorMessage : String :=
  "PSF does not have a realisation that can be used for convolution"

/-- `PSF::convolve` from src/trunk/include/lsst/meas/algorithms/PSF.h:
if the PSF has no kernel, or the kernel width or height is <= 0, throw a
RuntimeErrorException; otherwise call the external
`lsst::afw::math::convolve` (abstracted as `genericConvolve`) on the input
image with the kernel, doNormalize and edgeBit.  The convolved output
image is returned rather than written through a reference. -/
def PSF.convolve (genericConvolve : Image → Kernel → Bool → ℤ → Image)
    (psf : PSF) (inImage : Image) (doNormalize : Bool) (edgeBit : ℤ) :
    Except LsstException Image :=
  match psf.kernel with
  | none => .error (.runtimeErrorException convolveErrorMessage)
  | some k =>
      if k.width ≤ 0 ∨ k.height ≤ 0 then
        .error (.runtimeErrorException convolveErrorMessage)
      else
        .ok (genericConvolve inImage k doNormalize edgeBit)

/-- `PsfFactoryBase::create(int, int, double, double, double)`, the
default a kernel-based factory inherits: throws NotFoundException (the
error the spec calls UnsupportedOperation) naming the missing signature. -/
def PsfFactoryBase.createParametricDefault (α : Type) (_width _height : ℤ)
    (_p0 _p1 _p2 : ℚ) : Except LsstException α :=
  .error (.notFoundException
    "This PSF type doesn\x27t have an (int, int, double, double, double) constructor")

/-- `PsfFactoryBase::create(lsst::afw::math::Kernel::Ptr)`, the default a
parametric factory inherits: throws NotFoundException (the error the spec
calls UnsupportedOperation) naming the missing signature. -/
def PsfFactoryBase.createKernelDefault (α : Type) (_kernel : Kernel) :
    Except LsstException α :=
  .error (.notFoundException
    "This PSF type doesn\x27t have a (lsst::afw::math::Kernel::Ptr) constructor")

/-- `PsfFactory<PsfT, boost::tuple<int, int, double, double, double>>`: the
factory for a PSF variant built from the parametric signature; the
variant `PsfT` is abstracted by its constructor `mk`. -/
structure ParametricPsfFactory (α : Type) where
  make : ℤ → ℤ → ℚ → ℚ → ℚ → α

/-- The implemented create method of the parametric factory. -/
def ParametricPsfFactory.create (f : ParametricPsfFactory α)
    (width height : ℤ) (p0 p1 p2 : ℚ) : Except LsstException α :=
  .ok (f.make width height p0 p1 p2)

/-- The other (non-implemented) create method of the parametric factory:
calls the base-class default. -/
def ParametricPsfFactory.createFromKernel (_ : ParametricPsfFactory α)
    (kernel : Kernel) : Except LsstException α :=
  PsfFactoryBase.createKernelDefault α kernel

/-- `PsfFactory<PsfT, lsst::afw::math::Kernel::Ptr>`: the factory for a
PSF variant built from a pre-built kernel. -/
structure KernelPsfFactory (α : Type) where
  make : Kernel → α

/-- The implemented create method of the kernel factory. -/
def KernelPsfFactory.create (f : KernelPsfFactory α) (kernel : Kernel) :
    Except LsstException α :=
  .ok (f.make kernel)

/-- The other (non-implemented) create method of the kernel factory:
calls the base-class default. -/
def KernelPsfFactory.createParametric (_ : KernelPsfFactory α)
    (width height : ℤ) (p0 p1 p2 : ℚ) : Except LsstException α :=
  PsfFactoryBase.createParametricDefault α width height p0 p1 p2

/-- `Shape::Matrix4` from src/include/lsst/meas/algorithms/Shape.h: the
type of the 4x4 covariance matrix over (m0, mxx, mxy, myy); the Eigen
Matrix4f entries are modelled as rationals. -/
def Matrix4 : Type := Fin 4 → Fin 4 → ℚ

/-- `class Shape` from src/include/lsst/meas/algorithms/Shape.h: a
centroid, the moments `_m0, _mxx, _mxy, _myy`, the covariance matrix
`_covar`, the fourth moment `_mxy4` and the `_flags` bitmask.  The NaN
defaults of the C++ constructor are not representable over ℚ; the fields
here always carry the stored values. -/
structure Shape where
  centroid : Centroid
  m0 : ℚ
  mxx : ℚ
  mxy : ℚ
  myy : ℚ
  covar : Matrix4
  mxy4 : ℚ
  flags : ℤ

/-- `Shape::setCovar`. -/
def Shape.setCovar (s : Shape) (covar : Matrix4) : Shape :=
  { s with covar := covar }

/-- `Shape::getM0Err`: reads `_covar(0, 0)`. -/
def Shape.getM0Err (s : Shape) : ℚ := s.covar 0 0

/-- `Shape::getMxxErr`: reads `_covar(1, 1)`. -/
def Shape.getMxxErr (s : Shape) : ℚ := s.covar 1 1

/-- `Shape::getMxyErr`: reads `_covar(2, 2)`. -/
def Shape.getMxyErr (s : Shape) : ℚ := s.covar 2 2

/-- `Shape::getMyyErr`: reads `_covar(3, 3)`. -/
def Shape.getMyyErr (s : Shape) : ℚ := s.covar 3 3

/-- `Shape::getMxx`. -/
def Shape.getMxx (s : Shape) : ℚ := s.mxx

/-- `Shape::getMxy`. -/
def Shape.getMxy (s : Shape) : ℚ := s.mxy

/-- `Shape::getMyy`. -/
def Shape.getMyy (s : Shape) : ℚ := s.myy

/-- Modelled from the spec: `Shape::getE1` is only declared in Shape.h and
its body is not under src/; the spec gives e1 = (mxx − myy) / (mxx + myy). -/
def Shape.getE1 (s : Shape) : ℚ := (s.mxx - s.myy) / (s.mxx + s.myy)

/-- Modelled from the spec: `Shape::getE2` is only declared in Shape.h and
its body is not under src/; the spec gives e2 = 2·mxy / (mxx + myy). -/
def Shape.getE2 (s : Shape) : ℚ := 2 * s.mxy / (s.mxx + s.myy)

/-- Modelled from the spec: the AlgorithmRegistry state.  The registry
bodies (`PSF::declare` and `PSF::_registry` live in PSF.cc, and
`measureShape::registerType` / `lookupType` in a Shape source file, none
of them under src/); the spec contract is `register(name) -> tag`, with
tags opaque integers, stable and never reused. -/
structure AlgorithmRegistry where
  entries : List (String × ℤ)
  nextTag : ℤ

/-- Modelled from the spec: `register(name) -> tag`: if `name` is already
registered, return the existing tag (idempotent, no duplicate entries);
otherwise allocate a fresh tag and store the mapping. -/
def AlgorithmRegistry.registerName (r : AlgorithmRegistry) (name : String) :
    ℤ × AlgorithmRegistry :=
  match r.entries.find? (fun e => e.1 == name) with
  | some e => (e.2, r)
  | none => (r.nextTag, ⟨(name, r.nextTag) :: r.entries, r.nextTag + 1⟩)

/-- The state touched by one template instantiation of `PSF::registerMe`
from src/trunk/include/lsst/meas/algorithms/PSF.h: the function-local
`static bool _registered` flag of that instantiation, plus the names
declared to the PSF registry through `PSF::declare`. -/
structure RegisterMeState where
  registered : Bool
  declared : List String
deriving DecidableEq

/-- `PSF::registerMe<PsfT, PsfFactorySignatureT>`: if the
instantiation-local `_registered` flag is not yet set, declare the name
(the factory allocation and `markPersistent` call are registry side
effects, modelled by recording the declared name) and set the flag;
always return true. -/
def PSF.registerMe (name : String) (s : RegisterMeState) :
    Bool × RegisterMeState :=
  if s.registered then (true, s)
  else (true, ⟨true, name :: s.declared⟩)

end MeasAlgorithms

namespace MeasAlgorithms

open NaiveMeasureCentroid

/-! ## Helper lemmas -/

/-- Helper: when the background-subtracted patch sum is nonzero, `doApply`
returns the first-moment offset around the pixel position. -/
theorem doApply_eq_ok (indexToPosition : ℤ → ℚ) (image : Image) (x y : ℤ)
    (psf : Option PSF) (background : ℚ)
    (h : patchSum image x y background ≠ 0) :
    doApply indexToPosition image x y psf background =
      .ok { x := indexToPosition x +
                   patchSumX image x y / patchSum image x y background,
            y := indexToPosition y +
                   patchSumY image x y / patchSum image x y background } := by
  have hx : x - image.x0 + image.x0 = x := by ring
  have hy : y - image.y0 + image.y0 = y := by ring
  simp only [patchSum] at h
  simp only [doApply, patchSum, patchSumX, patchSumY, hx, hy, if_neg h]

/-- Helper: when the background-subtracted patch sum is zero, `doApply`
throws the "no counts" RuntimeErrorException. -/
theorem doApply_eq_error (indexToPosition : ℤ → ℚ) (image : Image) (x y : ℤ)
    (psf : Option PSF) (background : ℚ)
    (h : patchSum image x y background = 0) :
    doApply indexToPosition image x y psf background =
      .error (.runtimeErrorException
        (noCountsMessage (x - image.x0) (y - image.y0))) := by
  simp only [patchSum] at h
  simp only [doApply, if_pos h]

/-! ## Claim theorems -/

/-- C1: for every image, integer pixel position (x, y), and background
level, when the 3x3 background-subtracted patch sum is nonzero,
`NaiveMeasureCentroid::doApply` returns a Centroid whose coordinates are
(pixelCenter(x) + sum_x/sum, pixelCenter(y) + sum_y/sum) in the original
un-translated frame, where sum_x is the right-column sum minus the
left-column sum and sum_y is the top-row sum minus the bottom-row sum. -/
theorem naive_doApply_moment_formula (indexToPosition : ℤ → ℚ) (image : Image)
    (x y : ℤ) (psf : Option PSF) (background : ℚ)
    (h : patchSum image x y background ≠ 0) :
    doApply indexToPosition image x y psf background =
      .ok { x := indexToPosition x +
                   patchSumX image x y / patchSum image x y background,
            y := indexToPosition y +
                   patchSumY image x y / patchSum image x y background } :=
  doApply_eq_ok indexToPosition image x y psf background h

/-- Witness for C1 at a concrete input: the all-ones image with zero
background has patch sum 9, and the centroid is the pixel center. -/
theorem naive_doApply_moment_formula_witness :
    patchSum (constImage 1) 0 0 0 ≠ 0 ∧
    doApply (fun i => (i : ℚ)) (constImage 1) 0 0 none 0 =
      .ok { x := (fun i => (i : ℚ)) 0 +
                   patchSumX (constImage 1) 0 0 / patchSum (constImage 1) 0 0 0,
            y := (fun i => (i : ℚ)) 0 +
                   patchSumY (constImage 1) 0 0 / patchSum (constImage 1) 0 0 0 } :=
  ⟨by norm_num [patchSum, constImage],
   naive_doApply_moment_formula (fun i => (i : ℚ)) (constImage 1) 0 0 none 0
     (by norm_num [patchSum, constImage])⟩

/-- C2: `NaiveMeasureCentroid::doApply` fails, with the
RuntimeErrorException carrying the "no counts" message at the translated
position, exactly when the background-subtracted 3x3 patch sum is zero;
when the sum is nonzero it succeeds, so there is no other failure mode. -/
theorem naive_doApply_error_iff_zero_sum (indexToPosition : ℤ → ℚ)
    (image : Image) (x y : ℤ) (psf : Option PSF) (background : ℚ) :
    (patchSum image x y background = 0 →
       doApply indexToPosition image x y psf background =
         .error (.runtimeErrorException
           (noCountsMessage (x - image.x0) (y - image.y0)))) ∧
    (patchSum image x y background ≠ 0 →
       ∃ c : Centroid,
         doApply indexToPosition image x y psf background = .ok c) :=
  ⟨fun h => doApply_eq_error indexToPosition image x y psf background h,
   fun h => ⟨_, doApply_eq_ok indexToPosition image x y psf background h⟩⟩

/-- Witness for C2 at concrete inputs: the all-zero image fails with the
"no counts" error; the all-ones image succeeds. -/
theorem naive_doApply_error_iff_zero_sum_witness :
    (doApply (fun i => (i : ℚ)) (constImage 0) 0 0 none 0 =
       .error (.runtimeErrorException (noCountsMessage (0 - 0) (0 - 0)))) ∧
    (∃ c : Centroid,
       doApply (fun i => (i : ℚ)) (constImage 1) 0 0 none 0 = .ok c) :=
  ⟨(naive_doApply_error_iff_zero_sum (fun i => (i : ℚ)) (constImage 0)
      0 0 none 0).1 (by norm_num [patchSum, constImage]),
   (naive_doApply_error_iff_zero_sum (fun i => (i : ℚ)) (constImage 1)
      0 0 none 0).2 (by norm_num [patchSum, constImage])⟩

/-- Counterexample for C7 as stated: on a uniform patch whose nine values
all equal v = 0, with background 0, `doApply` does not return the nominal
pixel center; it throws the "no counts" RuntimeErrorException instead. -/
theorem naive_doApply_uniform_patch_cex :
    doApply (fun i => (i : ℚ)) (constImage 0) 0 0 none 0 =
      .error (.runtimeErrorException (noCountsMessage 0 0)) ∧
    doApply (fun i => (i : ℚ)) (constImage 0) 0 0 none 0 ≠
      .ok { x := 0, y := 0 } := by
  have h : doApply (fun i => (i : ℚ)) (constImage 0) 0 0 none 0 =
      .error (.runtimeErrorException (noCountsMessage 0 0)) :=
    doApply_eq_error (fun i => (i : ℚ)) (constImage 0) 0 0 none 0
      (by norm_num [patchSum, constImage])
  exact ⟨h, by rw [h]; exact fun hcontra => Except.noConfusion hcontra⟩

/-- C7 (amended): for every NONZERO value v, on a 3x3 patch whose nine
values all equal v, with background 0, `doApply` returns exactly the
nominal pixel center with zero offset in both coordinates. -/
theorem naive_doApply_uniform_patch (indexToPosition : ℤ → ℚ)
    (image : Image) (x y : ℤ) (psf : Option PSF) (v : ℚ) (hv : v ≠ 0)
    (hpatch : ∀ dx dy : ℤ, dx.natAbs ≤ 1 → dy.natAbs ≤ 1 →
       image.pixel (x - image.x0 + dx) (y - image.y0 + dy) = v) :
    doApply indexToPosition image x y psf 0 =
      .ok { x := indexToPosition x, y := indexToPosition y } := by
  have hsum : patchSum image x y 0 = 9 * v := by
    simp only [patchSum,
      hpatch (-1) 1 (by decide) (by decide), hpatch 0 1 (by decide) (by decide),
      hpatch 1 1 (by decide) (by decide), hpatch (-1) 0 (by decide) (by decide),
      hpatch 0 0 (by decide) (by decide), hpatch 1 0 (by decide) (by decide),
      hpatch (-1) (-1) (by decide) (by decide),
      hpatch 0 (-1) (by decide) (by decide),
      hpatch 1 (-1) (by decide) (by decide)]
    ring
  have hsx : patchSumX image x y = 0 := by
    simp only [patchSumX,
      hpatch (-1) 1 (by decide) (by decide), hpatch 1 1 (by decide) (by decide),
      hpatch (-1) 0 (by decide) (by decide), hpatch 1 0 (by decide) (by decide),
      hpatch (-1) (-1) (by decide) (by decide),
      hpatch 1 (-1) (by decide) (by decide)]
    ring
  have hsy : patchSumY image x y = 0 := by
    simp only [patchSumY,
      hpatch (-1) 1 (by decide) (by decide), hpatch 0 1 (by decide) (by decide),
      hpatch 1 1 (by decide) (by decide),
      hpatch (-1) (-1) (by decide) (by decide),
      hpatch 0 (-1) (by decide) (by decide),
      hpatch 1 (-1) (by decide) (by decide)]
    ring
  rw [doApply_eq_ok indexToPosition image x y psf 0
        (by rw [hsum]; exact mul_ne_zero (by norm_num) hv),
      hsx, hsy]
  norm_num

/-- Witness for C7 (amended) at a concrete input: the all-ones patch at
position (0, 0) yields exactly the pixel center (0, 0). -/
theorem naive_doApply_uniform_patch_witness :
    (1 : ℚ) ≠ 0 ∧
    doApply (fun i => (i : ℚ)) (constImage 1) 0 0 none 0 =
      .ok { x := (fun i => (i : ℚ)) 0, y := (fun i => (i : ℚ)) 0 } :=
  ⟨one_ne_zero,
   naive_doApply_uniform_patch (fun i => (i : ℚ)) (constImage 1) 0 0 none 1
     one_ne_zero (fun _ _ _ _ => rfl)⟩

/-- C8: `NaiveMeasureCentroid::doApply` does not depend on its PSF
argument (null or not), and any Centroid it returns has both error fields
unset. -/
theorem naive_doApply_psf_independent (indexToPosition : ℤ → ℚ)
    (image : Image) (x y : ℤ) (background : ℚ) (psf₁ psf₂ : Option PSF) :
    doApply indexToPosition image x y psf₁ background =
      doApply indexToPosition image x y psf₂ background ∧
    (∀ c : Centroid,
       doApply indexToPosition image x y psf₁ background = .ok c →
       c.xErr = none ∧ c.yErr = none) := by
  constructor
  · rfl
  · intro c hc
    simp only [doApply] at hc
    split at hc
    · exact absurd hc (by simp)
    · cases hc
      exact ⟨rfl, rfl⟩

/-- Witness for C8 at a concrete input: equal results for a present and an
absent PSF, and the returned Centroid has unset errors. -/
theorem naive_doApply_psf_independent_witness :
    (doApply (fun i => (i : ℚ)) (constImage 1) 0 0 (some ⟨none, 0, 0⟩) 0 =
       doApply (fun i => (i : ℚ)) (constImage 1) 0 0 none 0) ∧
    (({ x := 0, y := 0 } : Centroid).xErr = none ∧
     ({ x := 0, y := 0 } : Centroid).yErr = none) :=
  ⟨(naive_doApply_psf_independent (fun i => (i : ℚ)) (constImage 1) 0 0 0
      (some ⟨none, 0, 0⟩) none).1,
   (naive_doApply_psf_independent (fun i => (i : ℚ)) (constImage 1) 0 0 0
      (some ⟨none, 0, 0⟩) none).2 { x := 0, y := 0 }
     (by
       rw [doApply_eq_ok (fun i => (i : ℚ)) (constImage 1) 0 0
             (some ⟨none, 0, 0⟩) 0 (by norm_num [patchSum, constImage])]
       norm_num [patchSum, patchSumX, patchSumY, constImage])⟩

/-- C3: `PSF::convolve` fails, always with the RuntimeErrorException (the
spec calls it PreconditionError) about a missing usable realisation,
exactly when the kernel is absent or its width or height is not positive;
otherwise it delegates to the generic image-convolution routine with the
same kernel, doNormalize and edgeBit arguments. -/
theorem psf_convolve_precondition
    (genericConvolve : Image → Kernel → Bool → ℤ → Image)
    (psf : PSF) (inImage : Image) (doNormalize : Bool) (edgeBit : ℤ) :
    ((∃ e, PSF.convolve genericConvolve psf inImage doNormalize edgeBit =
        .error e) ↔
      (psf.kernel = none ∨
       ∃ k, psf.kernel = some k ∧ (k.width ≤ 0 ∨ k.height ≤ 0))) ∧
    (∀ e, PSF.convolve genericConvolve psf inImage doNormalize edgeBit =
        .error e → e = .runtimeErrorException convolveErrorMessage) ∧
    (∀ k, psf.kernel = some k → 0 < k.width → 0 < k.height →
       PSF.convolve genericConvolve psf inImage doNormalize edgeBit =
         .ok (genericConvolve inImage k doNormalize edgeBit)) := by
  obtain ⟨ok, w, h⟩ := psf
  cases ok with
  | none =>
      refine ⟨⟨fun _ => Or.inl rfl, fun _ => ⟨_, rfl⟩⟩, ?_, ?_⟩
      · intro e he
        simp only [PSF.convolve] at he
        exact (Except.error.inj he).symm
      · intro k hk
        exact absurd hk (by simp)
  | some k =>
      by_cases hdeg : k.width ≤ 0 ∨ k.height ≤ 0
      · refine ⟨⟨fun _ => Or.inr ⟨k, rfl, hdeg⟩,
                 fun _ => ⟨.runtimeErrorException convolveErrorMessage,
                           by simp [PSF.convolve, hdeg]⟩⟩, ?_, ?_⟩
        · intro e he
          simp only [PSF.convolve, if_pos hdeg] at he
          exact (Except.error.inj he).symm
        · intro k' hk' hw hh
          cases Option.some.inj hk'
          exact absurd hdeg (by push_neg; exact ⟨hw, hh⟩)
      · refine ⟨⟨?_, ?_⟩, ?_, ?_⟩
        · rintro ⟨e, he⟩
          simp only [PSF.convolve, if_neg hdeg] at he
          exact Except.noConfusion he
        · rintro (heq | ⟨k', hk', hdeg'⟩)
          · exact absurd heq (by simp)
          · cases Option.some.inj hk'
            exact absurd hdeg' hdeg
        · intro e he
          simp only [PSF.convolve, if_neg hdeg] at he
          exact Except.noConfusion he
        · intro k' hk' _ _
          cases Option.some.inj hk'
          simp [PSF.convolve, if_neg hdeg]

/-- Witness for C3 at concrete inputs: a PSF with no kernel fails with
the precondition error, and a PSF with a 3x3 kernel delegates to the
generic convolution routine. -/
theorem psf_convolve_precondition_witness :
    ((LsstException.runtimeErrorException convolveErrorMessage) =
       .runtimeErrorException convolveErrorMessage) ∧
    PSF.convolve (fun img _ _ _ => img) ⟨some ⟨3, 3⟩, 0, 0⟩ (constImage 1)
        true (-1) =
      .ok ((fun (img : Image) (_ : Kernel) (_ : Bool) (_ : ℤ) => img)
        (constImage 1) ⟨3, 3⟩ true (-1)) :=
  ⟨(psf_convolve_precondition (fun img _ _ _ => img) ⟨none, 0, 0⟩
      (constImage 1) true (-1)).2.1 _ rfl,
   (psf_convolve_precondition (fun img _ _ _ => img) ⟨some ⟨3, 3⟩, 0, 0⟩
      (constImage 1) true (-1)).2.2 ⟨3, 3⟩ rfl (by norm_num) (by norm_num)⟩

/-- C4: invoking the construction protocol a concrete single-protocol PSF
factory does not implement fails with the NotFoundException (the spec
calls it UnsupportedOperation) naming the missing signature: the kernel
signature on a parametric factory, and the parametric signature on a
kernel-based factory. -/
theorem psfFactory_missing_signature (α β : Type)
    (f : ParametricPsfFactory α) (g : KernelPsfFactory β) (kernel : Kernel)
    (width height : ℤ) (p0 p1 p2 : ℚ) :
    f.createFromKernel kernel =
      .error (.notFoundException
        "This PSF type doesn\x27t have a (lsst::afw::math::Kernel::Ptr) constructor") ∧
    g.createParametric width height p0 p1 p2 =
      .error (.notFoundException
        "This PSF type doesn\x27t have an (int, int, double, double, double) constructor") :=
  ⟨rfl, rfl⟩

/-- C5: after `setCovar(S)`, the accessors `getM0Err`, `getMxxErr`,
`getMxyErr` and `getMyyErr` return exactly the diagonal entries S(0,0),
S(1,1), S(2,2) and S(3,3). -/
theorem shape_setCovar_diagonal (s : Shape) (S : Matrix4) :
    (s.setCovar S).getM0Err = S 0 0 ∧
    (s.setCovar S).getMxxErr = S 1 1 ∧
    (s.setCovar S).getMxyErr = S 2 2 ∧
    (s.setCovar S).getMyyErr = S 3 3 :=
  ⟨rfl, rfl, rfl, rfl⟩

/-- C6: `getE1` returns (mxx − myy) / (mxx + myy) and `getE2` returns
2·mxy / (mxx + myy); in particular mxx = myy gives e1 = 0 and mxy = 0
gives e2 = 0. -/
theorem shape_ellipticity_formulas (s : Shape) :
    (s.getE1 = (s.getMxx - s.getMyy) / (s.getMxx + s.getMyy) ∧
     s.getE2 = 2 * s.getMxy / (s.getMxx + s.getMyy)) ∧
    (s.getMxx = s.getMyy → s.getE1 = 0) ∧
    (s.getMxy = 0 → s.getE2 = 0) := by
  refine ⟨⟨rfl, rfl⟩, fun h => ?_, fun h => ?_⟩
  · simp only [Shape.getMxx, Shape.getMyy] at h
    simp only [Shape.getE1, h, sub_self, zero_div]
  · simp only [Shape.getMxy] at h
    simp only [Shape.getE2, h, mul_zero, zero_div]

/-- Witness for C6 at a concrete Shape with mxx = myy = 2 and mxy = 0:
both ellipticity components are zero. -/
theorem shape_ellipticity_formulas_witness :
    (Shape.mk { x := 0, y := 0 } 1 2 0 2 (fun _ _ => 0) 0 0).getE1 = 0 ∧
    (Shape.mk { x := 0, y := 0 } 1 2 0 2 (fun _ _ => 0) 0 0).getE2 = 0 :=
  ⟨(shape_ellipticity_formulas
      (Shape.mk { x := 0, y := 0 } 1 2 0 2 (fun _ _ => 0) 0 0)).2.1 rfl,
   (shape_ellipticity_formulas
      (Shape.mk { x := 0, y := 0 } 1 2 0 2 (fun _ _ => 0) 0 0)).2.2 rfl⟩

/-- C9: registering an already-registered name returns the tag of the
first registration and leaves the registry unchanged, so the number of
entries does not grow on duplicate registration. -/
theorem registry_registerName_idempotent (r : AlgorithmRegistry)
    (name : String) :
    ((r.registerName name).2).registerName name =
      ((r.registerName name).1, (r.registerName name).2) ∧
    (((r.registerName name).2).registerName name).2.entries.length =
      ((r.registerName name).2).entries.length := by
  cases hfind : r.entries.find? (fun e => e.1 == name) with
  | some e =>
      constructor
      · simp [AlgorithmRegistry.registerName, hfind]
      · simp [AlgorithmRegistry.registerName, hfind]
  | none =>
      have hcons :
          (((name, r.nextTag) : String × ℤ) :: r.entries).find?
              (fun e => e.1 == name) = some (name, r.nextTag) := by
        simp [List.find?]
      constructor
      · simp [AlgorithmRegistry.registerName, hfind, hcons]
      · simp [AlgorithmRegistry.registerName, hfind, hcons]

/-- C10: only the first call to one instantiation of `PSF::registerMe`
performs a registration: a second call is a no-op returning true even
with a different name, which is therefore never declared. -/
theorem registerMe_second_call_noop (decls : List String) (n₁ n₂ : String)
    (h₂ : n₂ ∉ decls) (hne : n₂ ≠ n₁) :
    (PSF.registerMe n₁ ⟨false, decls⟩).1 = true ∧
    (PSF.registerMe n₁ ⟨false, decls⟩).2.declared = n₁ :: decls ∧
    PSF.registerMe n₂ (PSF.registerMe n₁ ⟨false, decls⟩).2 =
      (true, (PSF.registerMe n₁ ⟨false, decls⟩).2) ∧
    n₂ ∉ (PSF.registerMe n₂ (PSF.registerMe n₁ ⟨false, decls⟩).2).2.declared := by
  refine ⟨rfl, rfl, rfl, ?_⟩
  simp [PSF.registerMe, hne, h₂]

/-- Witness for C10 at concrete names: registering "NAIVE" first, a second
call with "OTHER" is a no-op and "OTHER" is never declared. -/
theorem registerMe_second_call_noop_witness :
    (PSF.registerMe "NAIVE" ⟨false, []⟩).1 = true ∧
    (PSF.registerMe "NAIVE" ⟨false, []⟩).2.declared = ["NAIVE"] ∧
    PSF.registerMe "OTHER" (PSF.registerMe "NAIVE" ⟨false, []⟩).2 =
      (true, (PSF.registerMe "NAIVE" ⟨false, []⟩).2) ∧
    "OTHER" ∉ (PSF.registerMe "OTHER"
      (PSF.registerMe "NAIVE" ⟨false, []⟩).2).2.declared :=
  registerMe_second_call_noop [] "NAIVE" "OTHER"
    (List.not_mem_nil "OTHER") (by decide)

end MeasAlgorithms
